/-
Verification of the HK2 receipt bookkeeping system: the receipt
normalization / reconciliation pipeline (extraction.types.ts) and the
natural-language query engine (chat route and text-to-SQL route).

Conventions of the embedding:
* TypeScript `number` fields holding monetary values are modelled as `ℚ`
  (the dataset's amounts are exact integral currency units; `NaN` and
  floating-point rounding do not arise in any behaviour checked here).
* Optional TS fields become `Option _`; JavaScript truthiness tests on
  them are modelled by explicit `jsTruthy…` helpers (0, "" , undefined
  and null are falsy).
* Error strings produced by the validator are modelled as an inductive
  `ValidationError` carrying the interpolated values, so distinct
  messages are distinct constructors.
-/
import Mathlib

/-! ## JavaScript-semantics helpers -/

/-- Truthiness of a JS number: `0` (and only `0`) is falsy. -/
def jsTruthyQ (q : ℚ) : Bool := q != 0

/-- Truthiness of an optional JS number: `undefined`/`null` and `0` are falsy. -/
def jsTruthyOptQ (o : Option ℚ) : Bool :=
  match o with
  | none => false
  | some q => q != 0

/-- Truthiness of an optional JS integer (e.g. a `parseCordPrice` result). -/
def jsTruthyOptN (o : Option ℕ) : Bool :=
  match o with
  | none => false
  | some n => n != 0

/-- Truthiness of an optional JS string: `undefined`/`null` and `""` are falsy. -/
def jsTruthyOptStr (o : Option String) : Bool :=
  match o with
  | none => false
  | some s => s != ""

/-- JS `a || b` for an optional number `a` and default `b`. -/
def jsOrQ (o : Option ℚ) (d : ℚ) : ℚ :=
  match o with
  | none => d
  | some q => if q = 0 then d else q

/-- JS `a || b` for an optional integer `a` and integer default `b`. -/
def jsOrN (o : Option ℕ) (d : ℕ) : ℕ :=
  match o with
  | none => d
  | some n => if n = 0 then d else n

/-- JS `a || b` for an optional string `a` and string default `b`. -/
def jsOrStr (o : Option String) (d : String) : String :=
  match o with
  | none => d
  | some s => if s = "" then d else s

/-- ASCII lower-casing of a string (the queries and patterns involved are ASCII). -/
def lowerStr (s : String) : String := String.mk (s.toList.map Char.toLower)

/-- JS `String.prototype.trim`: strip whitespace from both ends. -/
def trimStr (s : String) : String :=
  String.mk (((s.toList.dropWhile Char.isWhitespace).reverse.dropWhile
    Char.isWhitespace).reverse)

/-- JS `String.prototype.startsWith`. -/
def startsWithStr (s pre : String) : Bool := pre.toList.isPrefixOf s.toList

/-- Substring test on lists of characters (used for the regex literal
alternations of the query patterns and for JS `String.prototype.includes`). -/
def listContains (needle : List Char) : List Char → Bool
  | [] => needle.isPrefixOf []
  | c :: t => needle.isPrefixOf (c :: t) || listContains needle t

/-- JS `String.prototype.includes`. -/
def containsStr (hay needle : String) : Bool := listContains needle.toList hay.toList

/-- Whether any of the given literal alternatives occurs in the string
(a case-insensitive regex `/w1|w2|…/i` applied to an already lower-cased
string, with lower-case literals). -/
def matchesAny (hay : String) (alts : List String) : Bool :=
  alts.any (fun a => containsStr hay a)

/-! ## Extraction types (src/types/extraction.types.ts) -/

/-- Vendor/store info; all fields but `name` optional in the source. -/
structure VendorInfo where
  name : String
  address : Option String := none
  phone : Option String := none
  businessNumber : Option String := none
deriving Repr, DecidableEq

/-- Digit characters of a string, in order: the result of
`priceStr.replace(/[^\d]/g, '')`. -/
def digitChars (s : String) : List Char := s.toList.filter Char.isDigit

/-- Base-10 value of a list of digit characters (JS `parseInt(_, 10)`
applied to an all-digit string). -/
def digitsToNat (ds : List Char) : ℕ :=
  ds.foldl (fun acc c => 10 * acc + (c.toNat - 48)) 0

/-- `parseCordPrice`: CORD prices are strings with locale formatting
(e.g. "16,500"); strip every non-digit and parse base-10, an empty
remainder (or an absent/empty input, which is falsy) yielding `none`. -/
def parseCordPrice (priceStr : Option String) : Option ℕ :=
  match priceStr with
  | none => none
  | some s =>
    if s = "" then none
    else
      let cleaned := digitChars s
      if cleaned.isEmpty then none else some (digitsToNat cleaned)

/-- Line item; `subItems` is recursively nestable in the type. -/
inductive LineItem where
  | mk (name : String) (quantity : ℚ) (unitPrice : Option ℚ) (totalPrice : ℚ)
      (subItems : Option (List LineItem))
deriving Repr

def LineItem.name : LineItem → String
  | .mk n _ _ _ _ => n

def LineItem.quantity : LineItem → ℚ
  | .mk _ q _ _ _ => q

def LineItem.unitPrice : LineItem → Option ℚ
  | .mk _ _ u _ _ => u

def LineItem.totalPrice : LineItem → ℚ
  | .mk _ _ _ p _ => p

def LineItem.subItems : LineItem → Option (List LineItem)
  | .mk _ _ _ _ s => s

/-- Payment method enumeration. -/
inductive PaymentMethod where
  | cash
  | card
  | mixed
  | other
deriving Repr, DecidableEq

/-- Receipt header data. -/
structure ReceiptData where
  date : Option String := none
  time : Option String := none
  subtotal : Option ℚ := none
  taxAmount : Option ℚ := none
  serviceCharge : Option ℚ := none
  discount : Option ℚ := none
  totalAmount : ℚ
  paymentMethod : PaymentMethod
  cashPaid : Option ℚ := none
  cardPaid : Option ℚ := none
  changeAmount : Option ℚ := none
  itemTypeCount : Option ℚ := none
  totalItemCount : Option ℚ := none
deriving Repr

/-- The extracted data payload of an `ExtractionResult`. -/
structure ExtractionData where
  vendor : Option VendorInfo
  receipt : ReceiptData
  items : List LineItem
deriving Repr

/-- Extraction result as handed to the backend. -/
structure ExtractionResult where
  success : Bool
  confidence : ℚ
  errors : Option (List String) := none
  data : ExtractionData
  rawOcrText : Option String := none
  processingTimeMs : Option ℚ := none
  modelUsed : Option String := none
deriving Repr

/-- The distinct validation errors `validateExtractionResult` can emit;
the mismatch error carries the interpolated items sum and expected
subtotal exactly as the source message does. -/
inductive ValidationError where
  | totalAmountRequired
  | lineItemRequired
  | itemsSumMismatch (itemsSum expectedSubtotal : ℚ)
deriving Repr, DecidableEq

/-- Sum of the top-level line items' `totalPrice`
(`items.reduce((sum, item) => sum + item.totalPrice, 0)`). -/
def itemsSumOf (items : List LineItem) : ℚ :=
  items.foldl (fun sum item => sum + item.totalPrice) 0

/-- `result.data.receipt.subtotal || result.data.receipt.totalAmount`. -/
def expectedSubtotalOf (r : ReceiptData) : ℚ := jsOrQ r.subtotal r.totalAmount

/-- The 5% tolerance: `expectedSubtotal * 0.05`. -/
def toleranceOf (r : ReceiptData) : ℚ := expectedSubtotalOf r * 0.05

/-- `validateExtractionResult`: required-field checks followed by the
items-sum tolerance check; errors are returned, never thrown. -/
def validateExtractionResult (result : ExtractionResult) : List ValidationError :=
  (if jsTruthyQ result.data.receipt.totalAmount then []
   else [ValidationError.totalAmountRequired])
  ++ (if result.data.items.length = 0 then [ValidationError.lineItemRequired] else [])
  ++ (let itemsSum := itemsSumOf result.data.items
      let expectedSubtotal := expectedSubtotalOf result.data.receipt
      let tolerance := expectedSubtotal * 0.05
      if |itemsSum - expectedSubtotal| > tolerance then
        [ValidationError.itemsSumMismatch itemsSum expectedSubtotal]
      else [])

/-! ## CORD ground-truth types and conversion -/

structure CordSubTotal where
  subtotal_price : Option String := none
  discount_price : Option String := none
  service_price : Option String := none
  othersvc_price : Option String := none
  tax_price : Option String := none
deriving Repr

structure CordTotal where
  total_price : Option String := none
  creditcardprice : Option String := none
  emoneyprice : Option String := none
  cashprice : Option String := none
  changeprice : Option String := none
  menutype_cnt : Option String := none
  menuqty_cnt : Option String := none
deriving Repr

structure CordStoreInfo where
  name : Option String := none
  addr : Option String := none
  tel : Option String := none
  fax : Option String := none
  biznum : Option String := none
deriving Repr

inductive CordMenuItem where
  | mk (nm num unitprice cnt discountprice price itemsubtotal : Option String)
      (sub : Option (List CordMenuItem))
deriving Repr

def CordMenuItem.nm : CordMenuItem → Option String
  | .mk v _ _ _ _ _ _ _ => v

def CordMenuItem.unitprice : CordMenuItem → Option String
  | .mk _ _ v _ _ _ _ _ => v

def CordMenuItem.cnt : CordMenuItem → Option String
  | .mk _ _ _ v _ _ _ _ => v

def CordMenuItem.price : CordMenuItem → Option String
  | .mk _ _ _ _ _ v _ _ => v

def CordMenuItem.sub : CordMenuItem → Option (List CordMenuItem)
  | .mk _ _ _ _ _ _ _ v => v

structure CordGtParse where
  menu : Option (List CordMenuItem) := none
  sub_total : Option CordSubTotal := none
  total : Option CordTotal := none
  store_info : Option CordStoreInfo := none
deriving Repr

/-- Conversion of one nested CORD sub-item (`item.sub?.map(sub => …)`);
the source mapping does not recurse further, so the produced sub-item
carries no `subItems`. -/
def cordSubToLineItem (sub : CordMenuItem) : LineItem :=
  LineItem.mk (jsOrStr sub.nm "Sub-item")
    (jsOrN (parseCordPrice sub.cnt) 1 : ℕ)
    ((parseCordPrice sub.unitprice).map (fun n => (n : ℚ)))
    (jsOrN (parseCordPrice sub.price) 0 : ℕ)
    none

/-- Conversion of one top-level CORD menu item. -/
def cordMenuToLineItem (item : CordMenuItem) : LineItem :=
  LineItem.mk (jsOrStr item.nm "Unknown Item")
    (jsOrN (parseCordPrice item.cnt) 1 : ℕ)
    ((parseCordPrice item.unitprice).map (fun n => (n : ℚ)))
    (jsOrN (parseCordPrice item.price) 0 : ℕ)
    (item.sub.map (fun subs => subs.map cordSubToLineItem))

/-- `cordToExtractionResult`: convert CORD `gt_parse` to the canonical
extraction result, inferring the payment method from the cash/card paid
amounts when both, one, or neither is (truthily) present. -/
def cordToExtractionResult (gtParse : CordGtParse) : ExtractionResult :=
  let items := (gtParse.menu.getD []).map cordMenuToLineItem
  let totalAmount := jsOrN (parseCordPrice (gtParse.total.bind CordTotal.total_price)) 0
  let cashPaid := parseCordPrice (gtParse.total.bind CordTotal.cashprice)
  let cardPaid := parseCordPrice (gtParse.total.bind CordTotal.creditcardprice)
  let paymentMethod :=
    if jsTruthyOptN cashPaid && jsTruthyOptN cardPaid then PaymentMethod.mixed
    else if jsTruthyOptN cashPaid then PaymentMethod.cash
    else if jsTruthyOptN cardPaid then PaymentMethod.card
    else PaymentMethod.other
  let vendor : Option VendorInfo :=
    if jsTruthyOptStr (gtParse.store_info.bind CordStoreInfo.name) then
      some
        { name := (gtParse.store_info.bind CordStoreInfo.name).getD ""
          address := gtParse.store_info.bind CordStoreInfo.addr
          phone := gtParse.store_info.bind CordStoreInfo.tel
          businessNumber := gtParse.store_info.bind CordStoreInfo.biznum }
    else none
  { success := true
    confidence := 1
    data :=
      { vendor := vendor
        receipt :=
          { subtotal :=
              (parseCordPrice (gtParse.sub_total.bind CordSubTotal.subtotal_price)).map
                (fun n => (n : ℚ))
            taxAmount :=
              (parseCordPrice (gtParse.sub_total.bind CordSubTotal.tax_price)).map
                (fun n => (n : ℚ))
            serviceCharge :=
              (parseCordPrice (gtParse.sub_total.bind CordSubTotal.service_price)).map
                (fun n => (n : ℚ))
            discount :=
              (parseCordPrice (gtParse.sub_total.bind CordSubTotal.discount_price)).map
                (fun n => (n : ℚ))
            totalAmount := (totalAmount : ℕ)
            paymentMethod := paymentMethod
            cashPaid := cashPaid.map (fun n => (n : ℚ))
            cardPaid := cardPaid.map (fun n => (n : ℚ))
            changeAmount :=
              (parseCordPrice (gtParse.total.bind CordTotal.changeprice)).map
                (fun n => (n : ℚ))
            itemTypeCount :=
              (parseCordPrice (gtParse.total.bind CordTotal.menutype_cnt)).map
                (fun n => (n : ℚ))
            totalItemCount :=
              (parseCordPrice (gtParse.total.bind CordTotal.menuqty_cnt)).map
                (fun n => (n : ℚ)) }
        items := items }
    modelUsed := some "cord-ground-truth" }

/-! ## Chat route (rule-based NL query engine) -/

/-- A result row as returned by the storage engine; every column is
optional since different templates project different columns. -/
structure Row where
  id : Option String := none
  total_amount : Option ℚ := none
  tax_amount : Option ℚ := none
  payment_method : Option String := none
  status : Option String := none
  vendor : Option String := none
  count : Option ℚ := none
  total : Option ℚ := none
  receipt_count : Option ℚ := none
  total_spent : Option ℚ := none
  total_tax : Option ℚ := none
  avg_receipt : Option ℚ := none
deriving Repr, DecidableEq

/-- `QUERY_PATTERNS.total_spending`: `/how much|total|spent|spending|sum/i`. -/
def testTotalSpending (q : String) : Bool :=
  matchesAny q ["how much", "total", "spent", "spending", "sum"]

/-- `QUERY_PATTERNS.high_value`: `/above|over|more than|greater|expensive|highest/i`. -/
def testHighValue (q : String) : Bool :=
  matchesAny q ["above", "over", "more than", "greater", "expensive", "highest"]

/-- `QUERY_PATTERNS.low_value`: `/below|under|less than|cheaper|lowest|cheapest/i`. -/
def testLowValue (q : String) : Bool :=
  matchesAny q ["below", "under", "less than", "cheaper", "lowest", "cheapest"]

/-- `QUERY_PATTERNS.flagged`: `/flag|error|mismatch|problem|issue|wrong/i`. -/
def testFlagged (q : String) : Bool :=
  matchesAny q ["flag", "error", "mismatch", "problem", "issue", "wrong"]

/-- `QUERY_PATTERNS.payment_method`: `/cash|card|credit|e-money|payment/i`. -/
def testPaymentMethod (q : String) : Bool :=
  matchesAny q ["cash", "card", "credit", "e-money", "payment"]

/-- `QUERY_PATTERNS.count`: `/how many|count|number of/i`. -/
def testCount (q : String) : Bool :=
  matchesAny q ["how many", "count", "number of"]

/-- `QUERY_PATTERNS.tax`: `/tax|vat/i`. -/
def testTax (q : String) : Bool := matchesAny q ["tax", "vat"]

/-- `QUERY_PATTERNS.audit`: `/audit|duplicate|suspicious|alcohol|tobacco/i`. -/
def testAudit (q : String) : Bool :=
  matchesAny q ["audit", "duplicate", "suspicious", "alcohol", "tobacco"]

/-- Helper for `extractNumber`: find the first digit and take the maximal
following run of digits/commas, i.e. the first match of `/(\d+[\d,]*)/`,
then drop the commas and parse base-10. -/
def extractNumberAux : List Char → Option ℕ
  | [] => none
  | c :: t =>
    if c.isDigit then
      some (digitsToNat
        (((c :: t).takeWhile (fun d => d.isDigit || d == ',')).filter (fun d => d != ',')))
    else extractNumberAux t

/-- `extractNumber`: first digit run (with optional comma grouping) in
the query, parsed with the commas stripped; `none` when no digit occurs. -/
def extractNumber (query : String) : Option ℕ := extractNumberAux query.toList

/-- The SQL template strings of `parseQuery`, verbatim. -/
def countFlaggedSQL : String :=
  "SELECT COUNT(*) as count FROM receipts WHERE status = \x27flagged\x27"

def countAllSQL : String :=
  "SELECT COUNT(*) as count, SUM(total_amount) as total FROM receipts"

def totalSpendingSQL : String :=
  "\n      SELECT \n        COUNT(*) as receipt_count,\n        SUM(total_amount) as total_spent,\n        SUM(tax_amount) as total_tax,\n        AVG(total_amount) as avg_receipt\n      FROM receipts\n    "

def flaggedReceiptsSQL : String :=
  "\n      SELECT r.id, r.total_amount, r.status, v.name as vendor\n      FROM receipts r\n      LEFT JOIN vendors v ON r.vendor_id = v.id\n      WHERE r.status = \x27flagged\x27\n      ORDER BY r.total_amount DESC\n    "

def highValueSQL : String :=
  "\n      SELECT r.id, r.total_amount, r.payment_method, v.name as vendor\n      FROM receipts r\n      LEFT JOIN vendors v ON r.vendor_id = v.id\n      WHERE r.total_amount > ?\n      ORDER BY r.total_amount DESC\n      LIMIT 20\n    "

def lowValueSQL : String :=
  "\n      SELECT r.id, r.total_amount, r.payment_method, v.name as vendor\n      FROM receipts r\n      LEFT JOIN vendors v ON r.vendor_id = v.id\n      WHERE r.total_amount < ?\n      ORDER BY r.total_amount ASC\n      LIMIT 20\n    "

def paymentCashSQL : String :=
  "\n        SELECT r.id, r.total_amount, r.payment_method, v.name as vendor\n        FROM receipts r\n        LEFT JOIN vendors v ON r.vendor_id = v.id\n        WHERE r.payment_method = \x27cash\x27\n        ORDER BY r.total_amount DESC\n        LIMIT 20\n      "

def paymentCardSQL : String :=
  "\n        SELECT r.id, r.total_amount, r.payment_method, v.name as vendor\n        FROM receipts r\n        LEFT JOIN vendors v ON r.vendor_id = v.id\n        WHERE r.payment_method = \x27card\x27\n        ORDER BY r.total_amount DESC\n        LIMIT 20\n      "

def paymentBreakdownSQL : String :=
  "\n        SELECT payment_method, COUNT(*) as count, SUM(total_amount) as total\n        FROM receipts\n        GROUP BY payment_method\n        ORDER BY count DESC\n      "

def taxInfoSQL : String :=
  "\n      SELECT r.id, r.total_amount, r.tax_amount, v.name as vendor\n      FROM receipts r\n      LEFT JOIN vendors v ON r.vendor_id = v.id\n      WHERE r.tax_amount > 0\n      ORDER BY r.tax_amount DESC\n      LIMIT 20\n    "

def auditFindingsSQL : String :=
  "\n      SELECT r.id, r.total_amount, r.status, r.tax_amount, v.name as vendor\n      FROM receipts r\n      LEFT JOIN vendors v ON r.vendor_id = v.id\n      WHERE r.status = \x27flagged\x27 OR r.tax_amount IS NULL OR r.tax_amount = 0\n      ORDER BY r.total_amount DESC\n      LIMIT 20\n    "

def listReceiptsSQL : String :=
  "\n      SELECT r.id, r.total_amount, r.payment_method, r.status, v.name as vendor\n      FROM receipts r\n      LEFT JOIN vendors v ON r.vendor_id = v.id\n      ORDER BY r.total_amount DESC\n      LIMIT 15\n    "

/-- The output of `parseQuery`: a SQL string, its bound parameters and
the detected intent label. -/
structure ParsedQuery where
  sql : String
  params : List ℕ
  intent : String
deriving Repr, DecidableEq

/-- `parseQuery`: the rule-based intent cascade of the chat route,
evaluated top-to-bottom with first match winning; threshold-bearing
branches require a JS-truthy (present and non-zero) threshold and bind
it as a parameter. -/
def parseQuery (query : String) : ParsedQuery :=
  let lowerQuery := lowerStr query
  let isTotalQuery := testTotalSpending lowerQuery
  let isHighValue := testHighValue lowerQuery
  let isLowValue := testLowValue lowerQuery
  let isFlagged := testFlagged lowerQuery
  let isPaymentQuery := testPaymentMethod lowerQuery
  let isCountQuery := testCount lowerQuery
  let isTaxQuery := testTax lowerQuery
  let isAuditQuery := testAudit lowerQuery
  let threshold := extractNumber query
  if isCountQuery && isFlagged then
    { sql := countFlaggedSQL, params := [], intent := "count_flagged" }
  else if isCountQuery then
    { sql := countAllSQL, params := [], intent := "count_all" }
  else if isTotalQuery && !isHighValue && !isLowValue then
    { sql := totalSpendingSQL, params := [], intent := "total_spending" }
  else if isFlagged then
    { sql := flaggedReceiptsSQL, params := [], intent := "flagged_receipts" }
  else if isHighValue && jsTruthyOptN threshold then
    { sql := highValueSQL, params := [threshold.getD 0], intent := "high_value_receipts" }
  else if isLowValue && jsTruthyOptN threshold then
    { sql := lowValueSQL, params := [threshold.getD 0], intent := "low_value_receipts" }
  else if isPaymentQuery then
    { sql :=
        if containsStr lowerQuery "cash" then paymentCashSQL
        else if containsStr lowerQuery "card" then paymentCardSQL
        else paymentBreakdownSQL
      params := [], intent := "payment_breakdown" }
  else if isTaxQuery then
    { sql := taxInfoSQL, params := [], intent := "tax_info" }
  else if isAuditQuery then
    { sql := auditFindingsSQL, params := [], intent := "audit_findings" }
  else
    { sql := listReceiptsSQL, params := [], intent := "list_receipts" }

/-! ## Deterministic response formatter (chat route) -/

/-- Insert a comma after every third character of a reversed digit list
(helper for thousands grouping). -/
def groupThousandsAux : List Char → List Char
  | a :: b :: c :: d :: rest => a :: b :: c :: ',' :: groupThousandsAux (d :: rest)
  | l => l

/-- `n.toLocaleString('en-US')` for a natural number: decimal digits
grouped in threes by commas. -/
def natLocale (n : ℕ) : String :=
  String.mk ((groupThousandsAux (toString n).toList.reverse).reverse)

/-- Locale formatting of an integer. -/
def intLocale (i : ℤ) : String :=
  if i < 0 then "-" ++ natLocale i.natAbs else natLocale i.natAbs

/-- Locale formatting of a rational amount.  Non-integral amounts never
arise from the integral dataset and are not observable in any claim; only
the integral case models `toLocaleString` output. -/
def ratLocale (q : ℚ) : String :=
  if q.den = 1 then intLocale q.num else intLocale q.num ++ "/" ++ natLocale q.den

/-- `formatAmount`: `(n) => n?.toLocaleString('en-US') ?? '0'`. -/
def formatAmount (o : Option ℚ) : String :=
  match o with
  | none => "0"
  | some q => ratLocale q

/-- Plain JS template interpolation of a possibly-absent number. -/
def numStr (o : Option ℚ) : String :=
  match o with
  | none => "undefined"
  | some q => if q.den = 1 then toString q.num else toString q

/-- Plain JS template interpolation of a possibly-absent string. -/
def optStr (o : Option String) : String := o.getD "undefined"

/-- JS `Math.round`. -/
def jsRound (q : ℚ) : ℤ := ⌊q + 1 / 2⌋

/-- Concatenation of the per-row lines built by a `forEach` append loop. -/
def strJoin (l : List String) : String := l.foldl (fun a b => a ++ b) ""

/-- The fixed no-results sentence of the deterministic formatter. -/
def noResultsMsg : String := "I couldn\x27t find any receipts matching your query."

/-- `generateResponse`: deterministic intent-specific prose from result
rows; an empty result set short-circuits to the fixed no-results
sentence before any intent dispatch. -/
def generateResponse (intent : String) (results : List Row) (query : String) : String :=
  match results with
  | [] => noResultsMsg
  | r0 :: _ =>
    if intent = "total_spending" then
      "📊 **Spending Summary**\n\n" ++
        "- Total receipts: **" ++ numStr r0.receipt_count ++ "**\n" ++
        "- Total spent: **" ++ formatAmount r0.total_spent ++ "** IDR\n" ++
        "- Total tax: **" ++ formatAmount r0.total_tax ++ "** IDR\n" ++
        "- Average receipt: **" ++
          formatAmount (r0.avg_receipt.map (fun v => (jsRound v : ℚ))) ++ "** IDR"
    else if intent = "count_all" then
      "You have **" ++ numStr r0.count ++ "** receipts totaling **" ++
        formatAmount r0.total ++ "** IDR."
    else if intent = "count_flagged" then
      "There are **" ++ numStr r0.count ++ "** flagged receipts that need review."
    else if intent = "flagged_receipts" then
      "🚨 **Flagged Receipts** (" ++ toString results.length ++ " found)\n\n" ++
        "These receipts have mismatches between line items and totals:\n\n" ++
        strJoin (results.map (fun r =>
          "- **" ++ optStr r.id ++ "**: " ++ formatAmount r.total_amount ++ " IDR\n"))
    else if intent = "high_value_receipts" then
      "💰 **High Value Receipts** (above " ++
        formatAmount ((extractNumber query).map (fun n => (n : ℚ))) ++ " IDR)\n\n" ++
        "Found " ++ toString results.length ++ " receipts:\n\n" ++
        strJoin ((results.take 10).map (fun r =>
          "- **" ++ optStr r.id ++ "**: " ++ formatAmount r.total_amount ++
            " IDR (" ++ jsOrStr r.payment_method "unknown" ++ ")\n")) ++
        (if 10 < results.length then
          "\n... and " ++ toString (results.length - 10) ++ " more"
         else "")
    else if intent = "low_value_receipts" then
      "📉 **Low Value Receipts** (below " ++
        formatAmount ((extractNumber query).map (fun n => (n : ℚ))) ++ " IDR)\n\n" ++
        "Found " ++ toString results.length ++ " receipts:\n\n" ++
        strJoin ((results.take 10).map (fun r =>
          "- **" ++ optStr r.id ++ "**: " ++ formatAmount r.total_amount ++
            " IDR (" ++ jsOrStr r.payment_method "unknown" ++ ")\n"))
    else if intent = "payment_breakdown" then
      if jsTruthyOptStr r0.id then
        "💳 **" ++ (jsOrStr r0.payment_method "Unknown").toUpper ++ " Payments** (" ++
          toString results.length ++ " found)\n\n" ++
          "Total: **" ++
          formatAmount (some (results.foldl
            (fun sum r => sum + (r.total_amount.getD 0)) 0)) ++ "** IDR\n\n" ++
          strJoin ((results.take 10).map (fun r =>
            "- **" ++ optStr r.id ++ "**: " ++ formatAmount r.total_amount ++ " IDR\n"))
      else
        "💳 **Payment Method Breakdown**\n\n" ++
          strJoin (results.map (fun r =>
            "- **" ++ jsOrStr r.payment_method "Unknown" ++ "**: " ++
              numStr r.count ++ " receipts (" ++ formatAmount r.total ++ " IDR)\n"))
    else if intent = "tax_info" then
      "🧾 **Receipts with Tax/VAT** (" ++ toString results.length ++ " found)\n\n" ++
        "Total tax collected: **" ++
        formatAmount (some (results.foldl
          (fun sum r => sum + (r.tax_amount.getD 0)) 0)) ++ "** IDR\n\n" ++
        strJoin ((results.take 10).map (fun r =>
          "- **" ++ optStr r.id ++ "**: Tax " ++ formatAmount r.tax_amount ++
            " IDR (Receipt: " ++ formatAmount r.total_amount ++ " IDR)\n"))
    else if intent = "audit_findings" then
      let flagged := results.filter (fun r => r.status == some "flagged")
      let noTax := results.filter (fun r =>
        !jsTruthyOptQ r.tax_amount || r.tax_amount == some 0)
      "🔍 **Audit Findings** (" ++ toString results.length ++ " items)\n\n" ++
        (if 0 < flagged.length then
          "**⚠️ Flagged (mismatch):** " ++ toString flagged.length ++ "\n" ++
            strJoin ((flagged.take 5).map (fun r =>
              "  - " ++ optStr r.id ++ ": " ++ formatAmount r.total_amount ++ " IDR\n"))
         else "") ++
        (if 0 < noTax.length then
          "\n**📋 Missing VAT:** " ++ toString noTax.length ++ "\n" ++
            strJoin ((noTax.take 5).map (fun r =>
              "  - " ++ optStr r.id ++ ": " ++ formatAmount r.total_amount ++ " IDR\n"))
         else "")
    else
      "📋 **Receipts** (showing " ++ toString (min results.length 15) ++ ")\n\n" ++
        strJoin ((results.take 15).map (fun r =>
          "- " ++ (if r.status == some "flagged" then "🚨" else "✅") ++ " **" ++
            optStr r.id ++ "**: " ++ formatAmount r.total_amount ++
            " IDR (" ++ jsOrStr r.payment_method "unknown" ++ ")\n"))

/-- Referenced-receipt extraction of the chat route POST:
`results.filter(r => r.id).map(r => r.id).slice(0, 20)`. -/
def extractRefs (results : List Row) : List String :=
  ((results.filter (fun r => jsTruthyOptStr r.id)).map (fun r => r.id.getD "")).take 20

/-- Referenced-receipt extraction of the text-to-SQL route POST:
`results.filter(r => r.id && r.id.startsWith('cord_')).map(r => r.id).slice(0, 20)`. -/
def sqlExtractRefs (results : List Row) : List String :=
  ((results.filter (fun r =>
      jsTruthyOptStr r.id && startsWithStr (r.id.getD "") "cord_")).map
    (fun r => r.id.getD "")).take 20

/-! ## Text-to-SQL route (model-assisted path) -/

/-- The backtick character. -/
def btick : Char := Char.ofNat 96

/-- Whether the list starts with a case-insensitive code-fence marker
followed by `sql` (one match of `/```sql/gi`). -/
def fenceSqlAt (cs : List Char) : Bool :=
  match cs with
  | a :: b :: c :: d :: e :: f :: _ =>
    a == btick && b == btick && c == btick &&
      d.toLower == 's' && e.toLower == 'q' && f.toLower == 'l'
  | _ => false

/-- Whether the list starts with a bare code-fence marker
(one match of `/```/g`). -/
def fence3At (cs : List Char) : Bool :=
  match cs with
  | a :: b :: c :: _ => a == btick && b == btick && c == btick
  | _ => false

/-- Remove every occurrence of the ```sql fence marker, left to right
(`sql.replace(/```sql/gi, '')`).  The fuel argument, initialised to the
length of the list, makes the recursion structural; each step consumes at
least one character and one unit of fuel, so the fuel never runs out. -/
def stripSqlFencesAux : ℕ → List Char → List Char
  | 0, cs => cs
  | _ + 1, [] => []
  | fuel + 1, c :: t =>
    if fenceSqlAt (c :: t) then stripSqlFencesAux fuel (t.drop 5)
    else c :: stripSqlFencesAux fuel t

/-- Remove every occurrence of the bare ``` fence marker, left to right
(`.replace(/```/g, '')`). -/
def stripFence3Aux : ℕ → List Char → List Char
  | 0, cs => cs
  | _ + 1, [] => []
  | fuel + 1, c :: t =>
    if fence3At (c :: t) then stripFence3Aux fuel (t.drop 2)
    else c :: stripFence3Aux fuel t

/-- The clean-up applied to the model's text:
`sql.replace(/```sql/gi, '').replace(/```/g, '').trim()`. -/
def cleanModelSQL (raw : String) : String :=
  trimStr (String.mk
    (stripFence3Aux raw.length (stripSqlFencesAux raw.length raw.toList)))

/-- `generateSQL`, from the point the model's text (`data.response`, or
`none` for a failed/non-ok call) is in hand: trim it, strip code fences,
and reject it unless it starts with the case-insensitive token `select`. -/
def generateSQL (modelResponse : Option String) : Option String :=
  let sql0 := jsOrStr (modelResponse.map trimStr) ""
  let sql := cleanModelSQL sql0
  if startsWithStr (lowerStr sql) "select" then some sql else none

/-- The fixed apology of the text-to-SQL route when no query could be
generated. -/
def apologyMsg : String :=
  "I couldn\x27t understand that question. Try asking about spending totals, flagged receipts, or payment methods."

/-- The `error` field accompanying the apology. -/
def sqlGenErrorMsg : String := "Could not generate SQL - is Ollama running?"

/-- The JSON envelope the text-to-SQL POST returns (`status` is the HTTP
status; fields absent from a branch's JSON literal are `none`). -/
structure SqlReply where
  status : ℕ
  sessionId : String
  message : String
  sql : Option String
  error : Option String
  referencedReceipts : Option (List String)
  resultCount : Option ℕ
deriving Repr, DecidableEq

/-- The text-to-SQL POST handler after request parsing: reject the
model's text unless it is a `select` query (fixed apology, explicit
error field, success-shaped 200 envelope, nothing executed); otherwise
execute it (`exec` abstracts the storage engine, `fmt` the second model
call with its local fallback) and answer with the references extracted
from the result set. -/
def sqlRoutePOST (sessionId message : String) (modelResponse : Option String)
    (exec : String → Except String (List Row))
    (fmt : String → String → List Row → String) : SqlReply :=
  match generateSQL modelResponse with
  | none =>
    { status := 200, sessionId := sessionId, message := apologyMsg, sql := none
      error := some sqlGenErrorMsg, referencedReceipts := none, resultCount := none }
  | some sql =>
    match exec sql with
    | Except.error e =>
      { status := 400, sessionId := sessionId, message := "SQL error: " ++ e
        sql := some sql, error := some "SQL execution failed"
        referencedReceipts := none, resultCount := none }
    | Except.ok results =>
      { status := 200, sessionId := sessionId, message := fmt message sql results
        sql := some sql, error := none
        referencedReceipts := some (sqlExtractRefs results)
        resultCount := some results.length }

/-! ## Claim-side (specification) definitions -/

/-- The expected subtotal exactly as claim C1 words it: the receipt's
`subtotal` if present (even when zero), otherwise its `totalAmount`. -/
def specExpectedSubtotal (r : ReceiptData) : ℚ :=
  match r.subtotal with
  | some s => s
  | none => r.totalAmount

/-- The intent cascade exactly as claim C3 words it: threshold-bearing
branches fire whenever a threshold is present (including zero). -/
def specCascadeIntent (query : String) : String :=
  let lowerQuery := lowerStr query
  let isTotalQuery := testTotalSpending lowerQuery
  let isHighValue := testHighValue lowerQuery
  let isLowValue := testLowValue lowerQuery
  let isFlagged := testFlagged lowerQuery
  let isPaymentQuery := testPaymentMethod lowerQuery
  let isCountQuery := testCount lowerQuery
  let isTaxQuery := testTax lowerQuery
  let isAuditQuery := testAudit lowerQuery
  let threshold := extractNumber query
  if isCountQuery && isFlagged then "count_flagged"
  else if isCountQuery then "count_all"
  else if isTotalQuery && !isHighValue && !isLowValue then "total_spending"
  else if isFlagged then "flagged_receipts"
  else if isHighValue && threshold.isSome then "high_value_receipts"
  else if isLowValue && threshold.isSome then "low_value_receipts"
  else if isPaymentQuery then "payment_breakdown"
  else if isTaxQuery then "tax_info"
  else if isAuditQuery then "audit_findings"
  else "list_receipts"

/-- The amended cascade: as claim C3, except the threshold-bearing
branches require the threshold to be present and non-zero (the code
tests JS truthiness). -/
def amendedCascadeIntent (query : String) : String :=
  let lowerQuery := lowerStr query
  let isTotalQuery := testTotalSpending lowerQuery
  let isHighValue := testHighValue lowerQuery
  let isLowValue := testLowValue lowerQuery
  let isFlagged := testFlagged lowerQuery
  let isPaymentQuery := testPaymentMethod lowerQuery
  let isCountQuery := testCount lowerQuery
  let isTaxQuery := testTax lowerQuery
  let isAuditQuery := testAudit lowerQuery
  let threshold := extractNumber query
  if isCountQuery && isFlagged then "count_flagged"
  else if isCountQuery then "count_all"
  else if isTotalQuery && !isHighValue && !isLowValue then "total_spending"
  else if isFlagged then "flagged_receipts"
  else if isHighValue && jsTruthyOptN threshold then "high_value_receipts"
  else if isLowValue && jsTruthyOptN threshold then "low_value_receipts"
  else if isPaymentQuery then "payment_breakdown"
  else if isTaxQuery then "tax_info"
  else if isAuditQuery then "audit_findings"
  else "list_receipts"

/-- The `total_amount` of a row as SQL comparison sees it (`NULL`
compares false). -/
def rowAboveThreshold (t : ℚ) (r : Row) : Bool :=
  match r.total_amount with
  | some v => decide (t < v)
  | none => false

/-- Sort key for descending order by `total_amount`. -/
def rowAmountKey (r : Row) : ℚ := r.total_amount.getD 0

/-- Modelled from the spec: the Query Executor is an external
collaborator (the storage engine, consumed as a query/execute
interface and not part of the repository sources); this models it
running the high-value template `SELECT … WHERE r.total_amount > ?
ORDER BY r.total_amount DESC LIMIT 20` with the bound threshold. -/
def runHighValueQuery (rows : List Row) (t : ℚ) : List Row :=
  ((rows.filter (rowAboveThreshold t)).mergeSort
    (fun a b => decide (rowAmountKey b ≤ rowAmountKey a))).take 20

/-! ## Helper lemmas and concrete fixtures -/

/-- Membership of the items-sum mismatch error in the validator output,
characterised by the code's tolerance condition. -/
theorem mismatch_mem_validate (res : ExtractionResult) (a b : ℚ) :
    ValidationError.itemsSumMismatch a b ∈ validateExtractionResult res ↔
      (a = itemsSumOf res.data.items ∧ b = expectedSubtotalOf res.data.receipt ∧
       expectedSubtotalOf res.data.receipt * 0.05 <
         |itemsSumOf res.data.items - expectedSubtotalOf res.data.receipt|) := by
  unfold validateExtractionResult
  split_ifs with h1 h2 h3 <;> simp_all <;> tauto

/-- The base-10 fold over digit characters agrees with `Nat.ofDigits`. -/
theorem digitsToNat_go (ds : List Char) (acc : ℕ) :
    List.foldl (fun acc c => 10 * acc + (c.toNat - 48)) acc ds =
      acc * 10 ^ ds.length + Nat.ofDigits 10 (ds.reverse.map (fun c => c.toNat - 48)) := by
  induction ds generalizing acc with
  | nil => simp
  | cons c t ih =>
    simp [List.foldl_cons, ih, Nat.ofDigits_append, pow_succ]
    ring

/-- A receipt whose subtotal is present but zero, whose total is 100 and
whose single line item carries exactly 100. -/
def resSubZero : ExtractionResult :=
  { success := true, confidence := 1
    data :=
      { vendor := none
        receipt :=
          { subtotal := some 0, totalAmount := 100, paymentMethod := PaymentMethod.other }
        items := [LineItem.mk "Item" 1 none 100 none] } }

/-- A receipt with no total amount (assembled as 0) whose line items are
perfectly consistent with its subtotal. -/
def resNoTotal : ExtractionResult :=
  { success := true, confidence := 1
    data :=
      { vendor := none
        receipt :=
          { subtotal := some 45, totalAmount := 0, paymentMethod := PaymentMethod.other }
        items := [LineItem.mk "Latte" 1 none 45 none] } }

/-- Replace the subtotal of an extraction result. -/
def withSubtotal (res : ExtractionResult) (o : Option ℚ) : ExtractionResult :=
  { res with data :=
      { res.data with receipt := { res.data.receipt with subtotal := o } } }

/-- The id of a row when JS-truthy (chat route reference extraction). -/
def truthyIdOf (r : Row) : Option String :=
  match r.id with
  | none => none
  | some s => if s = "" then none else some s

/-- The id of a row when truthy and carrying the `cord_` prefix
(text-to-SQL route reference extraction). -/
def cordIdOf (r : Row) : Option String :=
  match r.id with
  | none => none
  | some s => if (s != "") && startsWithStr s "cord_" then some s else none

theorem filter_map_truthyId (rows : List Row) :
    (rows.filter (fun r => jsTruthyOptStr r.id)).map (fun r => r.id.getD "") =
      rows.filterMap truthyIdOf := by
  induction rows with
  | nil => rfl
  | cons r t ih =>
    cases hid : r.id with
    | none =>
      have h1 : jsTruthyOptStr r.id = false := by unfold jsTruthyOptStr; rw [hid]
      have h2 : truthyIdOf r = none := by unfold truthyIdOf; rw [hid]
      rw [List.filter_cons, h1, List.filterMap_cons, h2]
      simpa using ih
    | some s =>
      by_cases hs : s = ""
      · have h1 : jsTruthyOptStr r.id = false := by
          unfold jsTruthyOptStr; rw [hid]; simp [hs]
        have h2 : truthyIdOf r = none := by
          unfold truthyIdOf; rw [hid]; simp [hs]
        rw [List.filter_cons, h1, List.filterMap_cons, h2]
        simpa using ih
      · have h1 : jsTruthyOptStr r.id = true := by
          unfold jsTruthyOptStr; rw [hid]; simp [hs]
        have h2 : truthyIdOf r = some s := by
          unfold truthyIdOf; rw [hid]; simp [hs]
        have h3 : r.id.getD "" = s := by rw [hid]; rfl
        rw [List.filter_cons, h1, List.filterMap_cons, h2]
        simp only [if_true, List.map_cons, h3]
        simpa using ih

theorem filter_map_cordId (rows : List Row) :
    (rows.filter (fun r =>
        jsTruthyOptStr r.id && startsWithStr (r.id.getD "") "cord_")).map
      (fun r => r.id.getD "") = rows.filterMap cordIdOf := by
  induction rows with
  | nil => rfl
  | cons r t ih =>
    cases hid : r.id with
    | none =>
      have h1 : (jsTruthyOptStr r.id && startsWithStr (r.id.getD "") "cord_") = false := by
        unfold jsTruthyOptStr; rw [hid]; rfl
      have h2 : cordIdOf r = none := by unfold cordIdOf; rw [hid]
      rw [List.filter_cons, h1, List.filterMap_cons, h2]
      simpa using ih
    | some s =>
      by_cases hc : ((s != "") && startsWithStr s "cord_") = true
      · have h1 : (jsTruthyOptStr r.id && startsWithStr (r.id.getD "") "cord_") = true := by
          unfold jsTruthyOptStr; rw [hid]; dsimp only; exact hc
        have h2 : cordIdOf r = some s := by
          unfold cordIdOf; rw [hid]; dsimp only; rw [if_pos hc]
        have h3 : r.id.getD "" = s := by rw [hid]; rfl
        rw [List.filter_cons, h1, List.filterMap_cons, h2]
        simp only [if_true, List.map_cons, h3]
        simpa using ih
      · have h1 : (jsTruthyOptStr r.id && startsWithStr (r.id.getD "") "cord_") = false := by
          unfold jsTruthyOptStr; rw [hid]; dsimp only; exact Bool.eq_false_iff.mpr hc
        have h2 : cordIdOf r = none := by
          unfold cordIdOf; rw [hid]; dsimp only; rw [if_neg hc]
        rw [List.filter_cons, h1, List.filterMap_cons, h2]
        simpa using ih

theorem truthyIdOf_eq_some {r : Row} {x : String} (h : truthyIdOf r = some x) :
    r.id = some x := by
  unfold truthyIdOf at h
  revert h
  cases r.id with
  | none => intro h; simp at h
  | some s =>
    intro h
    dsimp only at h
    split_ifs at h with hs
    exact h

theorem cordIdOf_eq_some {r : Row} {x : String} (h : cordIdOf r = some x) :
    r.id = some x := by
  unfold cordIdOf at h
  revert h
  cases r.id with
  | none => intro h; simp at h
  | some s =>
    intro h
    dsimp only at h
    split_ifs at h with hs
    exact h

/-- A row whose id is present but does not carry the `cord_` prefix. -/
def rowPlain : Row := { id := some "r1", total_amount := some 100 }

/-- A row with a `cord_`-prefixed id. -/
def rowCord : Row := { id := some "cord_ab12" }

/-- A row above the 50000 threshold. -/
def rowHigh : Row := { id := some "cord_ab12", total_amount := some 60000 }

/-! ## Claim theorems -/

/-- C1 (amended): the Reconciliation Validator records the items-sum
mismatch error if and only if |itemsSum − expectedSubtotal| exceeds 5% of
expectedSubtotal, where itemsSum sums the top-level line items'
totalPrice and expectedSubtotal is the receipt's subtotal when present
and non-zero, otherwise its totalAmount; consequently a receipt whose
itemsSum is within 5% of that expectedSubtotal gets no tolerance-check
error. -/
theorem C1_tolerance_check (res : ExtractionResult) :
    ((∃ a b, ValidationError.itemsSumMismatch a b ∈ validateExtractionResult res) ↔
      expectedSubtotalOf res.data.receipt * 0.05 <
        |itemsSumOf res.data.items - expectedSubtotalOf res.data.receipt|) ∧
    (|itemsSumOf res.data.items - expectedSubtotalOf res.data.receipt| ≤
        expectedSubtotalOf res.data.receipt * 0.05 →
      ∀ a b, ValidationError.itemsSumMismatch a b ∉ validateExtractionResult res) := by
  constructor
  · constructor
    · rintro ⟨a, b, h⟩
      exact ((mismatch_mem_validate res a b).1 h).2.2
    · intro h
      exact ⟨_, _, (mismatch_mem_validate res _ _).2 ⟨rfl, rfl, h⟩⟩
  · intro h a b hmem
    exact absurd ((mismatch_mem_validate res a b).1 hmem).2.2 (not_lt.2 h)

/-- C1 witness: a receipt whose item sum equals its (code-side) expected
subtotal is within tolerance and carries no mismatch error. -/
theorem C1_witness :
    |itemsSumOf resSubZero.data.items - expectedSubtotalOf resSubZero.data.receipt| ≤
      expectedSubtotalOf resSubZero.data.receipt * 0.05 ∧
    ValidationError.itemsSumMismatch 1 2 ∉ validateExtractionResult resSubZero := by
  have hle : |itemsSumOf resSubZero.data.items - expectedSubtotalOf resSubZero.data.receipt| ≤
      expectedSubtotalOf resSubZero.data.receipt * 0.05 := by
    norm_num [resSubZero, itemsSumOf, expectedSubtotalOf, jsOrQ, LineItem.totalPrice]
  exact ⟨hle, (C1_tolerance_check resSubZero).2 hle 1 2⟩

/-- C1 counterexample: with a present-but-zero subtotal (totalAmount 100,
one item of 100) the claim's expected subtotal (the subtotal "if
present") makes the claimed inequality hold, yet the code records no
validation error at all, because the `||` fallback treats the zero
subtotal as absent. -/
theorem C1_counterexample :
    validateExtractionResult resSubZero = [] ∧
    specExpectedSubtotal resSubZero.data.receipt * 0.05 <
      |itemsSumOf resSubZero.data.items - specExpectedSubtotal resSubZero.data.receipt| := by
  constructor
  · norm_num [validateExtractionResult, resSubZero, itemsSumOf, expectedSubtotalOf, jsOrQ,
      jsTruthyQ, LineItem.totalPrice]
  · norm_num [resSubZero, specExpectedSubtotal, itemsSumOf, LineItem.totalPrice]

/-- C2: the Amount Normalizer strips every non-digit character and parses
the remaining digits base-10; an absent input or an empty digit remainder
yields an absent result; normalize("16,500") = 16500 and normalize("") is
absent.  The parsed value is pinned to `Nat.ofDigits` over the kept digit
characters. -/
theorem C2_parseCordPrice :
    parseCordPrice none = none ∧
    parseCordPrice (some "") = none ∧
    parseCordPrice (some "16,500") = some 16500 ∧
    (∀ s : String, parseCordPrice (some s) = none ↔ digitChars s = []) ∧
    (∀ (s : String) (n : ℕ), parseCordPrice (some s) = some n →
      n = Nat.ofDigits 10 ((digitChars s).reverse.map (fun c => c.toNat - 48))) := by
  refine ⟨rfl, rfl, by decide, ?_, ?_⟩
  · intro s
    simp only [parseCordPrice]
    by_cases hs : s = ""
    · subst hs
      simp [digitChars]
    · rw [if_neg hs]
      split_ifs with h
      · simp only [List.isEmpty_iff] at h
        simp [h]
      · simp only [List.isEmpty_iff] at h
        simp [h]
  · intro s n h
    simp only [parseCordPrice] at h
    by_cases hs : s = ""
    · rw [if_pos hs] at h
      exact absurd h (by simp)
    · rw [if_neg hs] at h
      split_ifs at h with hI
      have hn : digitsToNat (digitChars s) = n := Option.some_injective _ h
      rw [← hn]
      unfold digitsToNat
      rw [digitsToNat_go]
      simp

/-- C2 witness: the parsed value of "16,500" equals the base-10 value of
its digit characters. -/
theorem C2_witness :
    (16500 : ℕ) = Nat.ofDigits 10 ((digitChars "16,500").reverse.map (fun c => c.toNat - 48)) :=
  C2_parseCordPrice.2.2.2.2 "16,500" 16500 (by decide)

/-- C3 counterexample: the query "above 0" extracts the threshold 0,
which the claim's cascade ("high_value with a threshold") classifies as
high_value, but the code's truthiness test on the threshold makes it fall
through to the default list_receipts intent. -/
theorem C3_counterexample :
    specCascadeIntent "above 0" = "high_value_receipts" ∧
    extractNumber "above 0" = some 0 ∧
    (parseQuery "above 0").intent = "list_receipts" :=
  ⟨by decide, by decide, by decide⟩

set_option maxHeartbeats 4000000 in
set_option maxRecDepth 8000 in
/-- C3 (amended): intent resolution is the fixed priority cascade of the
claim, except that the high_value/low_value branches additionally require
the extracted threshold to be non-zero (JS truthiness); the input "how
many flagged receipts are there" classifies as count_flagged, not
count_all or flagged_receipts, and the payment branch sub-dispatches on
the literal words "cash"/"card". -/
theorem C3_cascade :
    (∀ query : String, (parseQuery query).intent = amendedCascadeIntent query) ∧
    (parseQuery "how many flagged receipts are there").intent = "count_flagged" ∧
    (parseQuery "show cash payments").sql = paymentCashSQL ∧
    (parseQuery "card payment list").sql = paymentCardSQL ∧
    (parseQuery "payment breakdown please").sql = paymentBreakdownSQL := by
  refine ⟨?_, by decide, by decide, by decide, by decide⟩
  intro query
  unfold parseQuery amendedCascadeIntent
  dsimp only
  split_ifs <;> rfl

/-- C4: the validator requires the total amount to be present and
positive: a missing total (assembled as 0) always produces the
required-field error, whatever the line items are, and a positive total
never does. -/
theorem C4_total_amount_required (res : ExtractionResult) :
    (res.data.receipt.totalAmount = 0 →
      ValidationError.totalAmountRequired ∈ validateExtractionResult res) ∧
    (0 < res.data.receipt.totalAmount →
      ValidationError.totalAmountRequired ∉ validateExtractionResult res) := by
  constructor
  · intro h
    unfold validateExtractionResult
    simp [jsTruthyQ, h]
  · intro h
    unfold validateExtractionResult
    have ht : jsTruthyQ res.data.receipt.totalAmount = true := by
      simp [jsTruthyQ]
      exact ne_of_gt h
    simp [ht]

/-- C4 witness: a receipt with totalAmount 0 whose items perfectly match
its subtotal still gets the required-field error. -/
theorem C4_witness :
    ValidationError.totalAmountRequired ∈ validateExtractionResult resNoTotal :=
  (C4_total_amount_required resNoTotal).1 rfl

/-- C5: the payment method inferred by the Receipt Assembler is mixed iff
both cash-paid and card-paid amounts are present and non-zero, cash iff
only the cash amount is, card iff only the card amount is, and other
otherwise. -/
theorem C5_payment_method (g : CordGtParse) :
    ((cordToExtractionResult g).data.receipt.paymentMethod = PaymentMethod.mixed ↔
      (jsTruthyOptN (parseCordPrice (g.total.bind CordTotal.cashprice)) = true ∧
       jsTruthyOptN (parseCordPrice (g.total.bind CordTotal.creditcardprice)) = true)) ∧
    ((cordToExtractionResult g).data.receipt.paymentMethod = PaymentMethod.cash ↔
      (jsTruthyOptN (parseCordPrice (g.total.bind CordTotal.cashprice)) = true ∧
       jsTruthyOptN (parseCordPrice (g.total.bind CordTotal.creditcardprice)) = false)) ∧
    ((cordToExtractionResult g).data.receipt.paymentMethod = PaymentMethod.card ↔
      (jsTruthyOptN (parseCordPrice (g.total.bind CordTotal.cashprice)) = false ∧
       jsTruthyOptN (parseCordPrice (g.total.bind CordTotal.creditcardprice)) = true)) ∧
    ((cordToExtractionResult g).data.receipt.paymentMethod = PaymentMethod.other ↔
      (jsTruthyOptN (parseCordPrice (g.total.bind CordTotal.cashprice)) = false ∧
       jsTruthyOptN (parseCordPrice (g.total.bind CordTotal.creditcardprice)) = false)) := by
  cases hcash : jsTruthyOptN (parseCordPrice (g.total.bind CordTotal.cashprice)) <;>
    cases hcard : jsTruthyOptN (parseCordPrice (g.total.bind CordTotal.creditcardprice)) <;>
      simp [cordToExtractionResult, hcash, hcard]

/-- C6: the model's text is accepted only when, after stripping code
fences and trimming, it starts with the case-insensitive token select;
otherwise the route answers with the fixed apology, an explicit error
field and a success-shaped 200 envelope, and the reply does not depend on
the executor or formatter (nothing is executed). -/
theorem C6_select_gate (sess msg : String) (modelResponse : Option String)
    (exec exec2 : String → Except String (List Row))
    (fmt fmt2 : String → String → List Row → String) :
    (generateSQL modelResponse = none ↔
      startsWithStr (lowerStr (cleanModelSQL (jsOrStr (modelResponse.map trimStr) "")))
        "select" = false) ∧
    (∀ s, generateSQL modelResponse = some s →
      startsWithStr (lowerStr s) "select" = true) ∧
    (generateSQL modelResponse = none →
      sqlRoutePOST sess msg modelResponse exec fmt =
        { status := 200, sessionId := sess, message := apologyMsg, sql := none
          error := some sqlGenErrorMsg, referencedReceipts := none, resultCount := none } ∧
      sqlRoutePOST sess msg modelResponse exec fmt =
        sqlRoutePOST sess msg modelResponse exec2 fmt2) := by
  refine ⟨?_, ?_, ?_⟩
  · unfold generateSQL
    dsimp only
    split_ifs with h
    · simp [h]
    · simp [Bool.eq_false_iff.mpr h]
  · intro s hs
    unfold generateSQL at hs
    dsimp only at hs
    split_ifs at hs with h
    · cases hs
      exact h
  · intro h
    constructor
    · simp [sqlRoutePOST, h]
    · simp [sqlRoutePOST, h]

/-- C6 witness: a non-select model answer is rejected and the route
returns the apology envelope. -/
theorem C6_witness :
    sqlRoutePOST "s1" "what is this" (some "I cannot help with that")
        (fun _ => Except.ok []) (fun _ _ _ => "") =
      { status := 200, sessionId := "s1", message := apologyMsg, sql := none
        error := some sqlGenErrorMsg, referencedReceipts := none, resultCount := none } :=
  ((C6_select_gate "s1" "what is this" (some "I cannot help with that")
      (fun _ => Except.ok []) (fun _ => Except.error "boom")
      (fun _ _ _ => "") (fun _ _ _ => "other")).2.2 (by decide)).1

set_option maxHeartbeats 4000000 in
set_option maxRecDepth 8000 in
/-- C7: "Show receipts above 50000" classifies as the high-value intent
with threshold 50000; the synthesized query is the high-value template,
which binds the threshold as a parameter (the literal 50000 never appears
in the SQL text, the placeholder does); executing that template keeps
exactly the rows with total_amount > 50000, in descending order of total
amount, capped at 20 rows. -/
theorem C7_high_value_scenario :
    (parseQuery "Show receipts above 50000").intent = "high_value_receipts" ∧
    extractNumber "Show receipts above 50000" = some 50000 ∧
    (parseQuery "Show receipts above 50000").params = [50000] ∧
    (parseQuery "Show receipts above 50000").sql = highValueSQL ∧
    containsStr highValueSQL "50000" = false ∧
    containsStr highValueSQL "?" = true ∧
    ∀ rows : List Row,
      (∀ r ∈ runHighValueQuery rows 50000, ∃ v, r.total_amount = some v ∧ 50000 < v) ∧
      (runHighValueQuery rows 50000).length ≤ 20 ∧
      (runHighValueQuery rows 50000).Pairwise
        (fun a b => rowAmountKey b ≤ rowAmountKey a) := by
  refine ⟨by decide, by decide, by decide, by decide, by decide, by decide, ?_⟩
  intro rows
  refine ⟨?_, ?_, ?_⟩
  · intro r hr
    have hr1 : r ∈ (rows.filter (rowAboveThreshold 50000)).mergeSort
        (fun a b => decide (rowAmountKey b ≤ rowAmountKey a)) :=
      List.mem_of_mem_take hr
    rw [List.mem_mergeSort] at hr1
    have hp := List.of_mem_filter hr1
    unfold rowAboveThreshold at hp
    cases ht : r.total_amount with
    | none => rw [ht] at hp; exact absurd hp (by simp)
    | some v =>
      rw [ht] at hp
      exact ⟨v, rfl, of_decide_eq_true hp⟩
  · unfold runHighValueQuery
    rw [List.length_take]
    exact min_le_left _ _
  · unfold runHighValueQuery
    have hs : ((rows.filter (rowAboveThreshold 50000)).mergeSort
        (fun a b => decide (rowAmountKey b ≤ rowAmountKey a))).Pairwise
        (fun a b => decide (rowAmountKey b ≤ rowAmountKey a) = true) := by
      apply List.sorted_mergeSort
      · intro a b c h1 h2
        simp only [decide_eq_true_eq] at h1 h2 ⊢
        exact le_trans h2 h1
      · intro a b
        by_cases hab : rowAmountKey b ≤ rowAmountKey a
        · simp [hab]
        · simp [le_of_not_le hab]
    exact ((hs.imp (fun h => of_decide_eq_true h)).sublist (List.take_sublist _ _))

/-- C7 witness: one row above the threshold survives the executed
template and indeed exceeds 50000. -/
theorem C7_witness : ∃ v, rowHigh.total_amount = some v ∧ (50000 : ℚ) < v := by
  have hp : rowAboveThreshold 50000 rowHigh = true := by decide
  have hmem : rowHigh ∈ runHighValueQuery [rowHigh] 50000 := by
    simp [runHighValueQuery, List.filter_cons, hp]
  exact ((C7_high_value_scenario.2.2.2.2.2.2 [rowHigh]).1) rowHigh hmem

/-- C8: for every intent, an empty result set makes the deterministic
formatter return exactly the fixed no-results sentence, and the
referenced-receipt extraction yields the empty list. -/
theorem C8_empty_results (intent query : String) :
    generateResponse intent [] query = noResultsMsg ∧ extractRefs [] = [] :=
  ⟨rfl, rfl⟩

/-- C9 counterexample: on the text-to-SQL route, a result row whose id
"r1" is present (truthy) contributes nothing to the reference list,
because that route keeps only identifiers starting with "cord_". -/
theorem C9_counterexample :
    jsTruthyOptStr rowPlain.id = true ∧ sqlExtractRefs [rowPlain] = [] :=
  ⟨rfl, by decide⟩

/-- C9 (amended): the chat route's reference list is exactly the truthy
row identifiers in result order capped at 20; the text-to-SQL route's is
exactly the truthy identifiers starting with "cord_", in result order
capped at 20; both lists are bounded by 20 and are subsets of the
identifiers appearing in the result set. -/
theorem C9_referenced_receipts (rows : List Row) :
    extractRefs rows = (rows.filterMap truthyIdOf).take 20 ∧
    sqlExtractRefs rows = (rows.filterMap cordIdOf).take 20 ∧
    (extractRefs rows).length ≤ 20 ∧
    (sqlExtractRefs rows).length ≤ 20 ∧
    (∀ x ∈ extractRefs rows, ∃ r ∈ rows, r.id = some x) ∧
    (∀ x ∈ sqlExtractRefs rows, ∃ r ∈ rows, r.id = some x) := by
  have h1 : extractRefs rows = (rows.filterMap truthyIdOf).take 20 := by
    unfold extractRefs
    rw [filter_map_truthyId]
  have h2 : sqlExtractRefs rows = (rows.filterMap cordIdOf).take 20 := by
    unfold sqlExtractRefs
    rw [filter_map_cordId]
  refine ⟨h1, h2, ?_, ?_, ?_, ?_⟩
  · rw [h1, List.length_take]
    exact min_le_left _ _
  · rw [h2, List.length_take]
    exact min_le_left _ _
  · intro x hx
    rw [h1] at hx
    have hx2 := List.mem_of_mem_take hx
    obtain ⟨r, hr, hid⟩ := List.mem_filterMap.mp hx2
    exact ⟨r, hr, truthyIdOf_eq_some hid⟩
  · intro x hx
    rw [h2] at hx
    have hx2 := List.mem_of_mem_take hx
    obtain ⟨r, hr, hid⟩ := List.mem_filterMap.mp hx2
    exact ⟨r, hr, cordIdOf_eq_some hid⟩

/-- C9 witness: a cord-prefixed identifier in the reference list indeed
appears in the result set. -/
theorem C9_witness : ∃ r ∈ [rowCord], r.id = some "cord_ab12" :=
  (C9_referenced_receipts [rowCord]).2.2.2.2.2 "cord_ab12" (by decide)

/-- C10: a subtotal that is present but zero is treated as absent: the
expected subtotal falls back to the receipt's totalAmount, the tolerance
becomes 5% of totalAmount, and the validator output is identical to the
one for the same receipt with no subtotal at all. -/
theorem C10_zero_subtotal_fallback (res : ExtractionResult)
    (h : res.data.receipt.subtotal = some 0) :
    expectedSubtotalOf res.data.receipt = res.data.receipt.totalAmount ∧
    toleranceOf res.data.receipt = res.data.receipt.totalAmount * 0.05 ∧
    validateExtractionResult res = validateExtractionResult (withSubtotal res none) := by
  have h1 : expectedSubtotalOf res.data.receipt = res.data.receipt.totalAmount := by
    unfold expectedSubtotalOf jsOrQ
    rw [h]
    simp
  refine ⟨h1, ?_, ?_⟩
  · unfold toleranceOf
    rw [h1]
  · unfold validateExtractionResult
    have h2 : expectedSubtotalOf (withSubtotal res none).data.receipt =
        res.data.receipt.totalAmount := by
      unfold expectedSubtotalOf jsOrQ withSubtotal
      simp
    have h3 : (withSubtotal res none).data.receipt.totalAmount =
        res.data.receipt.totalAmount := rfl
    have h4 : (withSubtotal res none).data.items = res.data.items := rfl
    rw [h1, h2, h3, h4]

/-- C10 witness: the zero-subtotal receipt validates identically to its
subtotal-free counterpart, with the fallback expected subtotal 100. -/
theorem C10_witness :
    expectedSubtotalOf resSubZero.data.receipt = resSubZero.data.receipt.totalAmount ∧
    toleranceOf resSubZero.data.receipt = resSubZero.data.receipt.totalAmount * 0.05 ∧
    validateExtractionResult resSubZero = validateExtractionResult (withSubtotal resSubZero none) :=
  C10_zero_subtotal_fallback resSubZero rfl
